import Mathlib

/-!
Verification development for the leeward PDAL wrapper and the uncertainty
engine it calls into.

The repository's own source (`BodyFrameFilter`, `LeewardFilter`) is the
point-cloud wrapper; the engine behind `leeward.h` (trajectory store,
calibration model, frame transform, uncertainty propagator) is not part of
the visible source, so those components are modelled from the specification
and marked as such in their doc comments.

Conventions: machine floating-point scalars of the wrapper are modelled as
rationals (`ℚ`); the engine's real-valued geometry (square roots, arc
cosine) is modelled over `ℝ`.  Angles at the trajectory level are degrees.
-/

namespace Leeward

/-! ## Trajectory store (modelled from the spec, §4.1) -/

/-- Modelled from the spec: a `TrajectoryRecord` — timestamp, position in
the mapping frame, and attitude (roll, pitch, yaw) in degrees.  The engine
behind `leeward.h` owning these records is not in the visible source. -/
structure TrajRecord where
  time : ℚ
  x : ℚ
  y : ℚ
  z : ℚ
  roll : ℚ
  pitch : ℚ
  yaw : ℚ
deriving DecidableEq, Repr

/-- Modelled from the spec: the interpolated platform state returned by a
point-in-time trajectory query. -/
structure PlatformState where
  x : ℚ
  y : ℚ
  z : ℚ
  roll : ℚ
  pitch : ℚ
  yaw : ℚ
deriving DecidableEq, Repr

/-- The platform state carried by a single record. -/
def TrajRecord.toState (r : TrajRecord) : PlatformState :=
  { x := r.x, y := r.y, z := r.z, roll := r.roll, pitch := r.pitch, yaw := r.yaw }

/-- Linear interpolation between two scalars at ratio `r`. -/
def lerp (a b r : ℚ) : ℚ := a + (b - a) * r

/-- Normalize an angle in degrees into the half-open interval `[-180, 180)`. -/
def wrapAngle (x : ℚ) : ℚ := x - 360 * (⌊(x + 180) / 360⌋ : ℤ)

/-- Modelled from the spec: shortest-arc angle interpolation — move from `a`
by the wrapped (shorter-arc) difference, scaled by the ratio, and normalize
the result back into `[-180, 180)`. -/
def angleLerp (a b r : ℚ) : ℚ := wrapAngle (a + wrapAngle (b - a) * r)

/-- Modelled from the spec: strict time-ordering of trajectory records,
checked at construction. -/
def strictlyOrdered : List TrajRecord → Bool
  | [] => true
  | [_] => true
  | a :: b :: rest => decide (a.time < b.time) && strictlyOrdered (b :: rest)

/-- Timestamp of the last record (0 for an empty list; only used under a
nonemptiness hypothesis). -/
def lastTime : List TrajRecord → ℚ
  | [] => 0
  | [r] => r.time
  | _ :: r :: rest => lastTime (r :: rest)

/-- Failure of a per-point trajectory query. -/
inductive TrajError where
  | outOfRange
deriving DecidableEq, Repr

/-- Modelled from the spec: linear interpolation of position and attitude
between the bracketing pair of records for timestamp `t`. -/
def interpRecords (a b : TrajRecord) (t : ℚ) : PlatformState :=
  let r := (t - a.time) / (b.time - a.time)
  { x := lerp a.x b.x r
    y := lerp a.y b.y r
    z := lerp a.z b.z r
    roll := angleLerp a.roll b.roll r
    pitch := angleLerp a.pitch b.pitch r
    yaw := angleLerp a.yaw b.yaw r }

/-- Modelled from the spec: `interpolate(t) -> PlatformState | Fail(OutOfRange)`.
Finds the bracketing pair of records for `t` (the functional equivalent of
the spec's binary search), linearly interpolates position and attitude
(angles via shortest arc), and fails with `OutOfRange` when `t` lies before
the first or after the last record — no extrapolation. -/
def interpolate : List TrajRecord → ℚ → Except TrajError PlatformState
  | [], _ => .error .outOfRange
  | [a], t => if t = a.time then .ok a.toState else .error .outOfRange
  | a :: b :: rest, t =>
    if t < a.time then .error .outOfRange
    else if t ≤ b.time then .ok (interpRecords a b t)
    else interpolate (b :: rest) t

/-- Well-formed stored attitude: every angle already lies in `[-180, 180)`,
the normal form produced by the trajectory parser. -/
def TrajRecord.anglesWf (r : TrajRecord) : Prop :=
  (-180 ≤ r.roll ∧ r.roll < 180) ∧ (-180 ≤ r.pitch ∧ r.pitch < 180) ∧
    (-180 ≤ r.yaw ∧ r.yaw < 180)

instance : DecidablePred TrajRecord.anglesWf := fun r => by
  unfold TrajRecord.anglesWf; infer_instance


/-! ## Frame transform geometry (modelled from the spec, §4.3)

The engine's geometry is real-valued; it is modelled over `ℝ`. -/

/-- A 3-vector of real coordinates. -/
structure Vec3 where
  x : ℝ
  y : ℝ
  z : ℝ

/-- Euclidean dot product. -/
def dot (u v : Vec3) : ℝ := u.x * v.x + u.y * v.y + u.z * v.z

/-- Euclidean norm. -/
noncomputable def norm3 (u : Vec3) : ℝ := Real.sqrt (dot u u)

/-- Scalar multiple of a vector. -/
def smul3 (c : ℝ) (u : Vec3) : Vec3 := ⟨c * u.x, c * u.y, c * u.z⟩


/-- Modelled from the spec: `incidence_angle(ray_direction, surface_normal)`,
the angle between the outgoing lidar ray and the local surface normal,
clamped into [0°, 180°] and reported in degrees; 0° when the ray is
anti-parallel to the normal.  The engine behind `leeward.h` computing it is
not in the visible source.  (`Real.arccos` clamps its argument, matching the
spec's clamping.) -/
noncomputable def incidence_angle (ray n : Vec3) : ℝ :=
  Real.arccos (-(dot ray n) / (norm3 ray * norm3 n)) * 180 / Real.pi


/-! ## Uncertainty propagator (modelled from the spec, §4.4) -/

/-- Output shape of the unified propagation computation: per-axis,
horizontal, vertical and total sigma, plus the incidence angle. -/
structure UncertaintyResult where
  sx : ℝ
  sy : ℝ
  horizontal : ℝ
  vertical : ℝ
  total : ℝ
  incidence : ℝ

/-- Modelled from the spec: first-order (Taylor) error propagation over
uncorrelated inputs — output variance is the sum over input error sources of
(partial derivative)² · (input variance).  Each term is a pair
(derivative, variance). -/
def propagatedVariance (terms : List (ℝ × ℝ)) : ℝ :=
  (terms.map fun d => d.1 ^ 2 * d.2).sum

/-- Modelled from the spec: a propagated sigma is the square root of the
propagated variance. -/
noncomputable def sigmaOf (terms : List (ℝ × ℝ)) : ℝ :=
  Real.sqrt (propagatedVariance terms)

/-- Modelled from the spec: the unified propagation computation behind the
four query shapes; `leeward.h`'s engine is not in the visible source.
Horizontal uncertainty is the propagated variance projected onto the local
horizontal plane (x and y components in quadrature), vertical is the
component along local vertical, and total is their quadrature combination
`sqrt(horizontal² + vertical²)` (equivalently the full 3D magnitude). -/
noncomputable def propagate (xTerms yTerms vTerms : List (ℝ × ℝ))
    (incidence : ℝ) : UncertaintyResult :=
  let sx := sigmaOf xTerms
  let sy := sigmaOf yTerms
  let sv := sigmaOf vTerms
  let sh := Real.sqrt (sx ^ 2 + sy ^ 2)
  { sx := sx, sy := sy, horizontal := sh, vertical := sv,
    total := Real.sqrt (sh ^ 2 + sv ^ 2), incidence := incidence }


/-! ## Wrapper data model (from `src/BodyFrameFilter.cpp` and
`src/LeewardFilter.cpp`)

Machine floating-point fields are modelled as rationals. -/

/-- `struct LeewardLidar` as marshalled by the filters (X, Y, Z, scan angle,
time). -/
structure Lidar where
  x : ℚ
  y : ℚ
  z : ℚ
  scanAngle : ℚ
  time : ℚ
deriving DecidableEq, Repr

/-- `struct LeewardNormal` as marshalled by `LeewardFilter::filter`. -/
structure Normal where
  x : ℚ
  y : ℚ
  z : ℚ
deriving DecidableEq, Repr

/-- The body-frame result struct consumed by `BodyFrameFilter::filter`. -/
structure BodyFrame where
  x : ℚ
  y : ℚ
  z : ℚ
  roll : ℚ
  pitch : ℚ
  yaw : ℚ
deriving DecidableEq, Repr

/-- The uncertainty result struct consumed by `LeewardFilter::filter`; its
`incidence_angle` field is in radians and the filter converts it to degrees
on output. -/
structure LeewardUncertainty where
  x : ℚ
  y : ℚ
  horizontal : ℚ
  vertical : ℚ
  total : ℚ
  incidence_angle : ℚ
deriving DecidableEq, Repr

/-- One record of the point view: the input dimensions the filters read
(X, Y, Z, ScanAngleRank, GpsTime, NormalX/Y/Z) and the registered output
dimensions, `none` while unset. -/
structure Point where
  x : ℚ
  y : ℚ
  z : ℚ
  scanAngle : ℚ
  gpsTime : ℚ
  normalX : ℚ
  normalY : ℚ
  normalZ : ℚ
  bodyFrameX : Option ℚ
  bodyFrameY : Option ℚ
  bodyFrameZ : Option ℚ
  roll : Option ℚ
  pitch : Option ℚ
  yaw : Option ℚ
  xUncertainty : Option ℚ
  yUncertainty : Option ℚ
  horizontalUncertainty : Option ℚ
  verticalUncertainty : Option ℚ
  uncertainty : Option ℚ
  incidenceAngle : Option ℚ
deriving DecidableEq, Repr

/-- Modelled from the spec: the calibration parameters loaded from the config
file (sensor mounting and noise budget); the parser behind `leeward.h` is not
in the visible source. -/
structure Config where
  boresightRoll : ℚ
  boresightPitch : ℚ
  boresightYaw : ℚ
  leverX : ℚ
  leverY : ℚ
  leverZ : ℚ
  rangeNoise : ℚ
  scanAngleNoise : ℚ
deriving DecidableEq, Repr

/-- Modelled from the spec: calibration validation — noise coefficients must
be nonnegative, otherwise construction fails. -/
def Config.valid (c : Config) : Bool :=
  decide (0 ≤ c.rangeNoise) && decide (0 ≤ c.scanAngleNoise)

/-- The engine handle: the immutable trajectory store and calibration model
owned for one processing run. -/
structure Engine where
  records : List TrajRecord
  config : Config
deriving DecidableEq, Repr

/-- Modelled from the spec: `leeward_new(sbet_path, config_path)`.  The file
reads are abstracted to their parse results (`none` models a missing or
unparsable file); construction fails — a null handle, modelled as `none` —
when either input is missing/malformed, when the trajectory records are not
strictly time-ordered or empty, or when the calibration is invalid. -/
def leeward_new (traj : Option (List TrajRecord)) (config : Option Config) :
    Option Engine :=
  match traj, config with
  | some records, some cfg =>
    if strictlyOrdered records && !records.isEmpty && cfg.valid then
      some { records := records, config := cfg }
    else none
  | _, _ => none

/-- The exact value of the C `M_PI` double constant. -/
def M_PI : ℚ := 884279719003555 / 281474976710656

namespace BodyFrameFilter

/-- Default of the `offset` argument registered in `BodyFrameFilter::addArgs`
(`float(0.0)`). -/
def defaultOffset : ℚ := 0

/-- Marshalling of one view point into `LeewardLidar` in
`BodyFrameFilter::filter`: X, Y, Z, and GpsTime shifted by the
caller-supplied time offset.  (This path never reads the scan angle; the
field is 0 here.) -/
def toLidar (p : Point) (offset : ℚ) : Lidar :=
  { x := p.x, y := p.y, z := p.z, scanAngle := 0, time := p.gpsTime + offset }

/-- Per-point body of the loop in `BodyFrameFilter::filter`: on success all
six registered output dimensions are written; on failure the point is left
untouched (a message goes to stderr) and processing continues. -/
def processPoint (query : Lidar → Option BodyFrame) (offset : ℚ) (p : Point) :
    Point :=
  match query (toLidar p offset) with
  | some bf =>
    { p with bodyFrameX := some bf.x, bodyFrameY := some bf.y,
             bodyFrameZ := some bf.z, roll := some bf.roll,
             pitch := some bf.pitch, yaw := some bf.yaw }
  | none => p

/-- The `for` loop of `BodyFrameFilter::filter` over the view; `query` is the
engine's `leeward_body_frame`. -/
def filterLoop (query : Lidar → Option BodyFrame) (offset : ℚ) :
    List Point → List Point
  | [] => []
  | p :: rest =>
    match query (toLidar p offset) with
    | some bf =>
      { p with bodyFrameX := some bf.x, bodyFrameY := some bf.y,
               bodyFrameZ := some bf.z, roll := some bf.roll,
               pitch := some bf.pitch, yaw := some bf.yaw } :: filterLoop query offset rest
    | none => p :: filterLoop query offset rest

/-- `BodyFrameFilter::filter`: the empty-path checks, engine construction
check, and the per-point loop; a thrown `pdal_error` is modelled as
`Except.error` carrying the thrown message. -/
def filter (sbet config : String) (engine : Option Engine)
    (query : Engine → Lidar → Option BodyFrame) (offset : ℚ)
    (view : List Point) : Except String (List Point) :=
  if sbet = "" then .error "No SBET path provided, exiting..."
  else if config = "" then .error "No config path provided, exiting..."
  else
    match engine with
    | none => .error "Error when creating leeward, exiting..."
    | some e => .ok (filterLoop (query e) offset view)

end BodyFrameFilter

namespace LeewardFilter

/-- Marshalling of one view point into `LeewardLidar` in
`LeewardFilter::filter`: X, Y, Z, ScanAngleRank and GpsTime (no offset). -/
def toLidar (p : Point) : Lidar :=
  { x := p.x, y := p.y, z := p.z, scanAngle := p.scanAngle, time := p.gpsTime }

/-- Marshalling of the NormalX/Y/Z dimensions into `LeewardNormal`. -/
def toNormal (p : Point) : Normal :=
  { x := p.normalX, y := p.normalY, z := p.normalZ }

/-- Writing the six registered uncertainty output dimensions in
`LeewardFilter::filter`; the incidence angle is converted from radians to
degrees with `* 180 / M_PI`. -/
def writePoint (p : Point) (u : LeewardUncertainty) : Point :=
  { p with xUncertainty := some u.x, yUncertainty := some u.y,
           horizontalUncertainty := some u.horizontal,
           verticalUncertainty := some u.vertical,
           uncertainty := some u.total,
           incidenceAngle := some (u.incidence_angle * 180 / M_PI) }

/-- The `for` loop of `LeewardFilter::filter`: a failed per-point computation
throws `pdal_error`, aborting the run.  The result is the view at loop exit
paired with the thrown message, if any: on a failure the failing point's
outputs are unset and every later point is untouched. -/
def filterLoop (query : Lidar → Normal → Option LeewardUncertainty) :
    List Point → List Point × Option String
  | [] => ([], none)
  | p :: rest =>
    match query (toLidar p) (toNormal p) with
    | none => (p :: rest, some "Error when creating uncertainty, exiting...")
    | some u =>
      let res := filterLoop query rest
      (writePoint p u :: res.1, res.2)

/-- `LeewardFilter::filter`: the empty-path checks, engine construction
check, and the per-point loop, which aborts the whole run on any per-point
failure. -/
def filter (sbet config : String) (engine : Option Engine)
    (query : Engine → Lidar → Normal → Option LeewardUncertainty)
    (view : List Point) : Except String (List Point) :=
  if sbet = "" then .error "No SBET path provided, exiting..."
  else if config = "" then .error "No config path provided, exiting..."
  else
    match engine with
    | none => .error "Error when creating leeward, exiting..."
    | some e =>
      match filterLoop (query e) view with
      | (pts, none) => .ok pts
      | (_, some msg) => .error msg

end LeewardFilter

/-- Per-point result of `LeewardFilter::filter` when no exception is thrown:
write the six uncertainty dimensions on success, nothing otherwise. -/
def LeewardFilter.processPoint
    (query : Lidar → Normal → Option LeewardUncertainty) (p : Point) : Point :=
  match query (LeewardFilter.toLidar p) (LeewardFilter.toNormal p) with
  | some u => LeewardFilter.writePoint p u
  | none => p

/-- Whether a filter run ended in a thrown `pdal_error`. -/
def aborted : Except String (List Point) → Bool
  | .error _ => true
  | .ok _ => false

/-- A sample input point with every output dimension unset. -/
def samplePoint : Point :=
  { x := 1, y := 2, z := 3, scanAngle := 4, gpsTime := 5,
    normalX := 0, normalY := 0, normalZ := 1,
    bodyFrameX := none, bodyFrameY := none, bodyFrameZ := none,
    roll := none, pitch := none, yaw := none,
    xUncertainty := none, yUncertainty := none,
    horizontalUncertainty := none, verticalUncertainty := none,
    uncertainty := none, incidenceAngle := none }

/-- A sample calibration model. -/
def sampleConfig : Config :=
  { boresightRoll := 0, boresightPitch := 0, boresightYaw := 0,
    leverX := 0, leverY := 0, leverZ := 0, rangeNoise := 0, scanAngleNoise := 0 }

/-- A sample engine with a two-record trajectory. -/
def sampleEngine : Engine :=
  { records := [⟨0, 0, 0, 100, 0, 0, 0⟩, ⟨10, 100, 0, 100, 0, 0, 0⟩],
    config := sampleConfig }

/-- An engine query reporting a per-point failure for every point. -/
def noBodyFrameQuery : Lidar → Option BodyFrame := fun _ => none

/-- An engine query reporting a per-point uncertainty failure for every
point. -/
def noUncertaintyQuery : Lidar → Normal → Option LeewardUncertainty :=
  fun _ _ => none

/-- The failing uncertainty query as seen through an engine handle. -/
def failingEngineQuery : Engine → Lidar → Normal → Option LeewardUncertainty :=
  fun _ => noUncertaintyQuery

/-- An engine query succeeding with a fixed body-frame result. -/
def constBodyFrameQuery : Lidar → Option BodyFrame := fun _ => some ⟨7, 8, 9, 1, 2, 3⟩

/-- An engine query succeeding with a fixed uncertainty result. -/
def constUncertaintyQuery : Lidar → Normal → Option LeewardUncertainty :=
  fun _ _ => some ⟨1, 2, 3, 4, 5, 0⟩

/-- The always-failing body-frame query as seen through an engine handle. -/
def noEngineBodyFrameQuery : Engine → Lidar → Option BodyFrame :=
  fun _ => noBodyFrameQuery

/-! ## Lemmas and theorems -/

/-! ### Arithmetic lemmas about wrapping and interpolation -/

theorem wrapAngle_mem (x : ℚ) : -180 ≤ wrapAngle x ∧ wrapAngle x < 180 := by
  unfold wrapAngle
  have h360 : (0 : ℚ) < 360 := by norm_num
  have hle : ((⌊(x + 180) / 360⌋ : ℤ) : ℚ) ≤ (x + 180) / 360 := Int.floor_le _
  have hlt : (x + 180) / 360 < (⌊(x + 180) / 360⌋ : ℤ) + 1 := Int.lt_floor_add_one _
  rw [le_div_iff₀ h360] at hle
  rw [div_lt_iff₀ h360] at hlt
  constructor <;> nlinarith

theorem wrapAngle_eq_self {x : ℚ} (h1 : -180 ≤ x) (h2 : x < 180) : wrapAngle x = x := by
  unfold wrapAngle
  have hfl : ⌊(x + 180) / 360⌋ = 0 := by
    rw [Int.floor_eq_zero_iff, Set.mem_Ico]
    constructor
    · apply div_nonneg
      · linarith
      · norm_num
    · rw [div_lt_one]
      · linarith
      · norm_num
  rw [hfl]
  push_cast
  ring

theorem wrapAngle_sub_intMul (x : ℚ) (k : ℤ) : wrapAngle (x - 360 * k) = wrapAngle x := by
  unfold wrapAngle
  have harg : (x - 360 * k + 180) / 360 = (x + 180) / 360 - k := by
    field_simp
    ring
  rw [harg, Int.floor_sub_int]
  push_cast
  ring

theorem wrapAngle_reps (x : ℚ) : ∃ k : ℤ, wrapAngle x = x - 360 * k :=
  ⟨⌊(x + 180) / 360⌋, rfl⟩

theorem lerp_zero (a b : ℚ) : lerp a b 0 = a := by unfold lerp; ring

theorem lerp_one (a b : ℚ) : lerp a b 1 = b := by unfold lerp; ring

theorem angleLerp_zero {a : ℚ} (b : ℚ) (h1 : -180 ≤ a) (h2 : a < 180) :
    angleLerp a b 0 = a := by
  unfold angleLerp
  rw [mul_zero, add_zero]
  exact wrapAngle_eq_self h1 h2

theorem angleLerp_one (a : ℚ) {b : ℚ} (h1 : -180 ≤ b) (h2 : b < 180) :
    angleLerp a b 1 = b := by
  unfold angleLerp
  obtain ⟨k, hk⟩ := wrapAngle_reps (b - a)
  rw [mul_one, hk]
  have harg : a + (b - a - 360 * k) = b - 360 * k := by ring
  rw [harg, wrapAngle_sub_intMul]
  exact wrapAngle_eq_self h1 h2

/-! ### Structural lemmas about ordered record lists -/

theorem strictlyOrdered_cons {a b : TrajRecord} {rest : List TrajRecord}
    (h : strictlyOrdered (a :: b :: rest) = true) :
    a.time < b.time ∧ strictlyOrdered (b :: rest) = true := by
  simpa [strictlyOrdered] using h

theorem head_le_lastTime {a : TrajRecord} {rest : List TrajRecord}
    (h : strictlyOrdered (a :: rest) = true) : a.time ≤ lastTime (a :: rest) := by
  induction rest generalizing a with
  | nil => simp [lastTime]
  | cons b rest ih =>
    obtain ⟨hab, htail⟩ := strictlyOrdered_cons h
    calc a.time ≤ b.time := le_of_lt hab
      _ ≤ lastTime (b :: rest) := ih htail
      _ = lastTime (a :: b :: rest) := rfl

theorem head_time_lt_of_mem_tail {b r : TrajRecord} {rest : List TrajRecord}
    (h : strictlyOrdered (b :: rest) = true) (hm : r ∈ rest) : b.time < r.time := by
  induction rest generalizing b with
  | nil => cases hm
  | cons c rest ih =>
    obtain ⟨hbc, htail⟩ := strictlyOrdered_cons h
    rcases List.mem_cons.mp hm with hrc | hmem
    · rw [hrc]; exact hbc
    · exact lt_trans hbc (ih htail hmem)

theorem interpRecords_left {a b : TrajRecord} (_hlt : a.time < b.time)
    (hwf : a.anglesWf) : interpRecords a b a.time = a.toState := by
  obtain ⟨⟨hr1, hr2⟩, ⟨hp1, hp2⟩, ⟨hy1, hy2⟩⟩ := hwf
  unfold interpRecords
  have hzero : (a.time - a.time) / (b.time - a.time) = 0 := by
    rw [sub_self, zero_div]
  simp only [hzero, lerp_zero, angleLerp_zero _ hr1 hr2, angleLerp_zero _ hp1 hp2,
    angleLerp_zero _ hy1 hy2]
  rfl

theorem interpRecords_right {a b : TrajRecord} (hlt : a.time < b.time)
    (hwf : b.anglesWf) : interpRecords a b b.time = b.toState := by
  obtain ⟨⟨hr1, hr2⟩, ⟨hp1, hp2⟩, ⟨hy1, hy2⟩⟩ := hwf
  unfold interpRecords
  have hone : (b.time - a.time) / (b.time - a.time) = 1 :=
    div_self (sub_ne_zero.mpr (ne_of_gt hlt))
  simp only [hone, lerp_one, angleLerp_one _ hr1 hr2, angleLerp_one _ hp1 hp2,
    angleLerp_one _ hy1 hy2]
  rfl


theorem dot_self_nonneg (u : Vec3) : 0 ≤ dot u u := by
  have hsq : dot u u = u.x ^ 2 + u.y ^ 2 + u.z ^ 2 := by unfold dot; ring
  rw [hsq]
  positivity

theorem dot_self_pos {u : Vec3} (h : u ≠ ⟨0, 0, 0⟩) : 0 < dot u u := by
  rcases lt_or_eq_of_le (dot_self_nonneg u) with hlt | heq
  · exact hlt
  · exfalso
    apply h
    have hzero : u.x = 0 ∧ u.y = 0 ∧ u.z = 0 := by
      unfold dot at heq
      refine ⟨?_, ?_, ?_⟩ <;> nlinarith [sq_nonneg u.x, sq_nonneg u.y, sq_nonneg u.z]
    have hu : u = ⟨u.x, u.y, u.z⟩ := rfl
    rw [hu, hzero.1, hzero.2.1, hzero.2.2]


/-- The loop writes each point independently: it is the pointwise map of the
per-point body. -/
theorem BodyFrameFilter.filterLoop_eq_map (query : Lidar → Option BodyFrame) (offset : ℚ)
    (view : List Point) :
    filterLoop query offset view = view.map (processPoint query offset) := by
  induction view with
  | nil => rfl
  | cons p rest ih =>
    simp only [filterLoop, processPoint, List.map]
    cases query (toLidar p offset) <;> rw [ih]

/-! ### Trajectory query theorems -/

/-- C2: for every query whose timestamp falls strictly before the first or
strictly after the last trajectory record, the trajectory lookup fails with
`OutOfRange` and never returns a (possibly extrapolated or default) value. -/
theorem C2_interpolate_out_of_range (a : TrajRecord) (rest : List TrajRecord) (t : ℚ)
    (hs : strictlyOrdered (a :: rest) = true)
    (hout : t < a.time ∨ lastTime (a :: rest) < t) :
    interpolate (a :: rest) t = Except.error TrajError.outOfRange := by
  induction rest generalizing a with
  | nil =>
    have hne : t ≠ a.time := by
      rcases hout with h | h
      · exact ne_of_lt h
      · simp only [lastTime] at h
        exact ne_of_gt h
    simp [interpolate, hne]
  | cons b rest ih =>
    obtain ⟨hab, htail⟩ := strictlyOrdered_cons hs
    rcases hout with h | h
    · simp only [interpolate]
      rw [if_pos h]
    · have hlast : lastTime (a :: b :: rest) = lastTime (b :: rest) := rfl
      rw [hlast] at h
      have hbt : b.time ≤ lastTime (b :: rest) := head_le_lastTime htail
      have htb : b.time < t := lt_of_le_of_lt hbt h
      have hta : ¬ t < a.time := not_lt.mpr (le_of_lt (lt_trans hab htb))
      simp only [interpolate]
      rw [if_neg hta, if_neg (not_le.mpr htb)]
      exact ih b htail (Or.inr h)

/-- C2 witness: a concrete two-record trajectory rejects timestamps on both
sides of its coverage. -/
theorem C2_interpolate_out_of_range_witness :
    interpolate [⟨0, 0, 0, 100, 0, 0, 179⟩, ⟨10, 100, 0, 100, 0, 0, -179⟩] (-1) =
      Except.error TrajError.outOfRange :=
  C2_interpolate_out_of_range ⟨0, 0, 0, 100, 0, 0, 179⟩ [⟨10, 100, 0, 100, 0, 0, -179⟩]
    (-1) (by decide) (Or.inl (by norm_num))

/-- C5: interpolating at exactly a stored record's timestamp returns that
record's position and attitude values exactly, with no interpolation error
(attitudes stored in the normal form `[-180, 180)`). -/
theorem C5_interpolate_exact (rs : List TrajRecord) (r : TrajRecord)
    (hs : strictlyOrdered rs = true) (hwf : ∀ s ∈ rs, s.anglesWf)
    (hmem : r ∈ rs) :
    interpolate rs r.time = Except.ok r.toState := by
  induction rs with
  | nil => cases hmem
  | cons a rest ih =>
    cases rest with
    | nil =>
      have hra : r = a := by simpa using hmem
      subst hra
      simp [interpolate]
    | cons b rest2 =>
      obtain ⟨hab, htail⟩ := strictlyOrdered_cons hs
      rcases List.mem_cons.mp hmem with hra | hmem2
      · subst hra
        simp only [interpolate]
        rw [if_neg (lt_irrefl r.time), if_pos (le_of_lt hab)]
        rw [interpRecords_left hab (hwf r (List.mem_cons_self r _))]
      · rcases List.mem_cons.mp hmem2 with hrb | hmem3
        · subst hrb
          simp only [interpolate]
          rw [if_neg (not_lt.mpr (le_of_lt hab)), if_pos (le_refl r.time)]
          rw [interpRecords_right hab (hwf r (List.mem_cons_of_mem _ (List.mem_cons_self r _)))]
        · have hbr : b.time < r.time := head_time_lt_of_mem_tail htail hmem3
          have har : a.time < r.time := lt_trans hab hbr
          simp only [interpolate]
          rw [if_neg (not_lt.mpr (le_of_lt har)), if_neg (not_le.mpr hbr)]
          exact ih htail (fun s hmems => hwf s (List.mem_cons_of_mem _ hmems)) hmem2

/-- C5 witness: exact-timestamp lookup at both records of a concrete store. -/
theorem C5_interpolate_exact_witness :
    interpolate [⟨0, 1, 2, 100, 5, -5, 179⟩, ⟨10, 100, 0, 100, 0, 0, -179⟩] 10 =
      Except.ok ⟨100, 0, 100, 0, 0, -179⟩ :=
  C5_interpolate_exact [⟨0, 1, 2, 100, 5, -5, 179⟩, ⟨10, 100, 0, 100, 0, 0, -179⟩]
    ⟨10, 100, 0, 100, 0, 0, -179⟩ (by decide) (by decide) (by decide)

/-- C6: angle interpolation between adjacent records follows the shorter arc:
in general the wrapped difference applied by `angleLerp` is a representative
of the angular difference modulo 360° of magnitude at most 180° (the shorter
arc); concretely, for adjacent yaw values 179° and -179° the interpolated
midpoint is -180° (on the short two-degree arc through the ±180° boundary),
whereas the naive linear path would pass through 0°. -/
theorem C6_shortest_arc_interpolation (u v : ℚ) :
    (|wrapAngle (v - u)| ≤ 180 ∧ (∃ k : ℤ, wrapAngle (v - u) = v - u - 360 * k) ∧
      angleLerp u v = fun r => wrapAngle (u + wrapAngle (v - u) * r)) ∧
    (interpolate [⟨0, 0, 0, 100, 0, 0, 179⟩, ⟨10, 100, 0, 100, 0, 0, -179⟩] 5 =
        Except.ok ⟨50, 0, 100, 0, 0, -180⟩ ∧
      lerp 179 (-179) ((5 - 0) / (10 - 0)) = 0 ∧ (-180 : ℚ) ≠ 0) := by
  refine ⟨⟨?_, wrapAngle_reps (v - u), rfl⟩, ?_, by norm_num [lerp], by norm_num⟩
  · obtain ⟨h1, h2⟩ := wrapAngle_mem (v - u)
    exact abs_le.mpr ⟨h1, le_of_lt (lt_of_lt_of_le h2 (by norm_num))⟩
  · norm_num [interpolate, interpRecords, lerp, angleLerp, wrapAngle]


/-- C3: for every ray direction and surface normal, `incidence_angle` lies in
[0°, 180°] (degrees); it is 0° when the ray is anti-parallel to the normal
and 90° at grazing incidence (ray orthogonal to the normal). -/
theorem C3_incidence_angle_range (ray n : Vec3) :
    (0 ≤ incidence_angle ray n ∧ incidence_angle ray n ≤ 180) ∧
    (∀ c : ℝ, 0 < c → n ≠ ⟨0, 0, 0⟩ → ray = smul3 (-c) n → incidence_angle ray n = 0) ∧
    (dot ray n = 0 → incidence_angle ray n = 90) := by
  refine ⟨⟨?_, ?_⟩, ?_, ?_⟩
  · exact div_nonneg (mul_nonneg (Real.arccos_nonneg _) (by norm_num)) Real.pi_pos.le
  · unfold incidence_angle
    rw [div_le_iff₀ Real.pi_pos]
    have harc := Real.arccos_le_pi (-(dot ray n) / (norm3 ray * norm3 n))
    nlinarith [Real.pi_pos]
  · intro c hc hne hray
    subst hray
    have hd : 0 < dot n n := dot_self_pos hne
    unfold incidence_angle
    have hdot : dot (smul3 (-c) n) n = -c * dot n n := by unfold dot smul3; ring
    have hnorm : norm3 (smul3 (-c) n) = c * norm3 n := by
      unfold norm3
      have hsc : dot (smul3 (-c) n) (smul3 (-c) n) = c ^ 2 * dot n n := by
        unfold dot smul3; ring
      rw [hsc, Real.sqrt_mul (sq_nonneg c), Real.sqrt_sq_eq_abs, abs_of_pos hc]
    have hsq : norm3 n * norm3 n = dot n n := Real.mul_self_sqrt (dot_self_nonneg n)
    rw [hdot, hnorm]
    have harg : -(-c * dot n n) / (c * norm3 n * norm3 n) = 1 := by
      have hden : c * norm3 n * norm3 n = c * dot n n := by rw [mul_assoc, hsq]
      have hnum : -(-c * dot n n) = c * dot n n := by ring
      rw [hden, hnum]
      exact div_self (ne_of_gt (by positivity))
    rw [harg, Real.arccos_one, zero_mul, zero_div]
  · intro hdot
    unfold incidence_angle
    rw [hdot, neg_zero, zero_div, Real.arccos_zero]
    field_simp
    ring

/-- C3 witness: a straight-down nadir ray against an upward normal has
incidence angle 0°; a horizontal ray against an upward normal (grazing)
has incidence angle 90°. -/
theorem C3_incidence_angle_range_witness :
    incidence_angle ⟨0, 0, -1⟩ ⟨0, 0, 1⟩ = 0 ∧ incidence_angle ⟨1, 0, 0⟩ ⟨0, 0, 1⟩ = 90 := by
  constructor
  · exact (C3_incidence_angle_range ⟨0, 0, -1⟩ ⟨0, 0, 1⟩).2.1 1 one_pos
      (by simp) (by simp [smul3])
  · exact (C3_incidence_angle_range ⟨1, 0, 0⟩ ⟨0, 0, 1⟩).2.2 (by norm_num [dot])


/-- C4: for every successful query, every output sigma/uncertainty value is
nonnegative, and the total (magnitude) uncertainty is at least
`max(horizontal, vertical)`, the components being combined in quadrature. -/
theorem C4_sigma_nonneg_total_dominates (xTerms yTerms vTerms : List (ℝ × ℝ))
    (incidence : ℝ) :
    0 ≤ (propagate xTerms yTerms vTerms incidence).sx ∧
    0 ≤ (propagate xTerms yTerms vTerms incidence).sy ∧
    0 ≤ (propagate xTerms yTerms vTerms incidence).horizontal ∧
    0 ≤ (propagate xTerms yTerms vTerms incidence).vertical ∧
    0 ≤ (propagate xTerms yTerms vTerms incidence).total ∧
    max (propagate xTerms yTerms vTerms incidence).horizontal
        (propagate xTerms yTerms vTerms incidence).vertical ≤
      (propagate xTerms yTerms vTerms incidence).total := by
  unfold propagate sigmaOf
  dsimp only
  refine ⟨Real.sqrt_nonneg _, Real.sqrt_nonneg _, Real.sqrt_nonneg _,
    Real.sqrt_nonneg _, Real.sqrt_nonneg _, ?_⟩
  have hdom : ∀ h v : ℝ, 0 ≤ h → 0 ≤ v → h ≤ Real.sqrt (h ^ 2 + v ^ 2) := by
    intro h v hh hv
    have hle : h ^ 2 ≤ h ^ 2 + v ^ 2 := by nlinarith
    calc h = Real.sqrt (h ^ 2) := by rw [Real.sqrt_sq hh]
      _ ≤ Real.sqrt (h ^ 2 + v ^ 2) := Real.sqrt_le_sqrt hle
  apply max_le
  · exact hdom _ _ (Real.sqrt_nonneg _) (Real.sqrt_nonneg _)
  · have hcomm : ∀ h v : ℝ, Real.sqrt (h ^ 2 + v ^ 2) = Real.sqrt (v ^ 2 + h ^ 2) := by
      intro h v
      rw [add_comm]
    rw [hcomm]
    exact hdom _ _ (Real.sqrt_nonneg _) (Real.sqrt_nonneg _)


/-- C1 counterexample: the claim that no query variant aborts the whole run
on a per-point recoverable failure is false — `LeewardFilter::filter` throws
`pdal_error` as soon as one point's uncertainty computation fails, aborting
the run with the second point unprocessed. -/
theorem C1_counterexample :
    LeewardFilter.filter "sbet" "config" (some sampleEngine) failingEngineQuery
      [samplePoint, samplePoint] =
      Except.error "Error when creating uncertainty, exiting..." := by
  rfl

/-- C1 (amended): a per-point recoverable failure in the body-frame variant
is reported per point — the point is skipped, its output fields stay unset,
and the remaining points are still processed — but the uncertainty (leeward)
variant aborts the entire run at the first per-point failure, leaving the
failing and all later points unwritten. -/
theorem C1_per_point_failure_handling
    (query : Lidar → Option BodyFrame) (offset : ℚ) (p : Point)
    (rest : List Point) (hfail : query (BodyFrameFilter.toLidar p offset) = none)
    (qL : Lidar → Normal → Option LeewardUncertainty) (pL : Point)
    (restL : List Point)
    (hfailL : qL (LeewardFilter.toLidar pL) (LeewardFilter.toNormal pL) = none) :
    BodyFrameFilter.filterLoop query offset (p :: rest) =
      p :: BodyFrameFilter.filterLoop query offset rest ∧
    LeewardFilter.filterLoop qL (pL :: restL) =
      (pL :: restL, some "Error when creating uncertainty, exiting...") := by
  constructor
  · simp only [BodyFrameFilter.filterLoop, hfail]
  · simp only [LeewardFilter.filterLoop, hfailL]

/-- C1 witness: with an always-failing engine query, the body-frame variant
skips the failing point and carries on, while the leeward variant stops with
the thrown message. -/
theorem C1_per_point_failure_handling_witness :
    BodyFrameFilter.filterLoop noBodyFrameQuery 0 [samplePoint, samplePoint] =
      samplePoint :: BodyFrameFilter.filterLoop noBodyFrameQuery 0 [samplePoint] ∧
    LeewardFilter.filterLoop noUncertaintyQuery [samplePoint] =
      ([samplePoint], some "Error when creating uncertainty, exiting...") :=
  C1_per_point_failure_handling noBodyFrameQuery 0 samplePoint [samplePoint] rfl
    noUncertaintyQuery samplePoint [] rfl

/-- C7: engine construction is fatal on bad input — if the trajectory (sbet)
or config path is empty, or the trajectory/config data is missing or
malformed (including records not strictly time-ordered), both filter variants
immediately abort the whole run with a thrown error and process no point,
and `leeward_new` yields no (even partially constructed) engine handle. -/
theorem C7_construction_fatal (sbet config : String)
    (traj : Option (List TrajRecord)) (cfg : Option Config)
    (qB : Engine → Lidar → Option BodyFrame)
    (qL : Engine → Lidar → Normal → Option LeewardUncertainty)
    (offset : ℚ) (view : List Point)
    (hbad : sbet = "" ∨ config = "" ∨ leeward_new traj cfg = none) :
    aborted (BodyFrameFilter.filter sbet config (leeward_new traj cfg) qB offset view)
        = true ∧
    aborted (LeewardFilter.filter sbet config (leeward_new traj cfg) qL view) = true ∧
    (∀ records c, strictlyOrdered records = false →
      leeward_new (some records) (some c) = none) ∧
    leeward_new none cfg = none ∧ (∀ t, leeward_new t none = none) := by
  refine ⟨?_, ?_, ?_, ?_, ?_⟩
  · by_cases hs : sbet = ""
    · simp [BodyFrameFilter.filter, hs, aborted]
    · by_cases hc : config = ""
      · simp [BodyFrameFilter.filter, hs, hc, aborted]
      · have hnone : leeward_new traj cfg = none := by tauto
        simp [BodyFrameFilter.filter, hs, hc, hnone, aborted]
  · by_cases hs : sbet = ""
    · simp [LeewardFilter.filter, hs, aborted]
    · by_cases hc : config = ""
      · simp [LeewardFilter.filter, hs, hc, aborted]
      · have hnone : leeward_new traj cfg = none := by tauto
        simp [LeewardFilter.filter, hs, hc, hnone, aborted]
  · intro records c h
    simp [leeward_new, h]
  · cases cfg <;> rfl
  · intro t
    cases t <;> rfl

/-- C7 witness: an empty sbet path aborts both variants before any point is
processed; a non-time-ordered two-record trajectory yields no engine; a
missing trajectory parse yields no engine. -/
theorem C7_construction_fatal_witness :
    aborted (BodyFrameFilter.filter "" "config"
        (leeward_new (some []) (some sampleConfig)) noEngineBodyFrameQuery 0
        [samplePoint]) = true ∧
    aborted (LeewardFilter.filter "" "config"
        (leeward_new (some []) (some sampleConfig)) failingEngineQuery
        [samplePoint]) = true ∧
    leeward_new (some [⟨10, 0, 0, 0, 0, 0, 0⟩, ⟨0, 0, 0, 0, 0, 0, 0⟩])
        (some sampleConfig) = none ∧
    leeward_new none (some sampleConfig) = none :=
  ⟨(C7_construction_fatal "" "config" (some []) (some sampleConfig)
      noEngineBodyFrameQuery failingEngineQuery 0 [samplePoint] (Or.inl rfl)).1,
   (C7_construction_fatal "" "config" (some []) (some sampleConfig)
      noEngineBodyFrameQuery failingEngineQuery 0 [samplePoint] (Or.inl rfl)).2.1,
   (C7_construction_fatal "" "config" (some []) (some sampleConfig)
      noEngineBodyFrameQuery failingEngineQuery 0 [samplePoint] (Or.inl rfl)).2.2.1
      [⟨10, 0, 0, 0, 0, 0, 0⟩, ⟨0, 0, 0, 0, 0, 0, 0⟩] sampleConfig (by decide),
   (C7_construction_fatal "" "config" (some []) (some sampleConfig)
      noEngineBodyFrameQuery failingEngineQuery 0 [samplePoint] (Or.inl rfl)).2.2.2.1⟩

/-- C8: queries are deterministic, stateless functions of the point and the
immutable engine state: each filter loop is the pointwise image of a
per-point function (so the result of a point does not depend on other points
or on any accumulated state, and repeating the same query over the same
engine reproduces bit-identical results), and processing distributes over
concatenation of views. -/
theorem C8_queries_stateless (qB : Lidar → Option BodyFrame) (offset : ℚ)
    (qL : Lidar → Normal → Option LeewardUncertainty)
    (view v1 v2 : List Point) :
    BodyFrameFilter.filterLoop qB offset view =
      view.map (BodyFrameFilter.processPoint qB offset) ∧
    BodyFrameFilter.filterLoop qB offset (v1 ++ v2) =
      BodyFrameFilter.filterLoop qB offset v1 ++
        BodyFrameFilter.filterLoop qB offset v2 ∧
    ((LeewardFilter.filterLoop qL view).2 = none →
      (LeewardFilter.filterLoop qL view).1 =
        view.map (LeewardFilter.processPoint qL)) := by
  refine ⟨BodyFrameFilter.filterLoop_eq_map qB offset view, ?_, ?_⟩
  · rw [BodyFrameFilter.filterLoop_eq_map, BodyFrameFilter.filterLoop_eq_map,
      BodyFrameFilter.filterLoop_eq_map, List.map_append]
  · induction view with
    | nil => intro _; rfl
    | cons p rest ih =>
      intro hok
      rcases hq : qL (LeewardFilter.toLidar p) (LeewardFilter.toNormal p) with _ | u
      · exfalso
        simp only [LeewardFilter.filterLoop, hq] at hok
        exact Option.noConfusion hok
      · simp only [LeewardFilter.filterLoop, hq] at hok ⊢
        simp only [List.map, LeewardFilter.processPoint, hq]
        rw [ih hok]

/-- C8 witness: on a concrete view the leeward loop output is the pointwise
map of its per-point function. -/
theorem C8_queries_stateless_witness :
    (LeewardFilter.filterLoop constUncertaintyQuery [samplePoint]).1 =
      [samplePoint].map (LeewardFilter.processPoint constUncertaintyQuery) :=
  (C8_queries_stateless noBodyFrameQuery 0 constUncertaintyQuery
    [samplePoint] [] []).2.2 rfl

/-- C9: the timestamp handed to the engine (and hence to trajectory lookup)
by the body-frame query is the point's GPS time plus the caller-supplied
time offset; the offset is an explicit parameter whose registered default is
0, so by default the lookup time is the GPS time itself. -/
theorem C9_time_offset_explicit (p : Point) (offset : ℚ) :
    (BodyFrameFilter.toLidar p offset).time = p.gpsTime + offset ∧
    BodyFrameFilter.defaultOffset = 0 ∧
    (BodyFrameFilter.toLidar p BodyFrameFilter.defaultOffset).time = p.gpsTime := by
  refine ⟨rfl, rfl, ?_⟩
  simp [BodyFrameFilter.toLidar, BodyFrameFilter.defaultOffset]

/-- C10: `BodyFrameFilter::filter` writes at most the six registered output
dimensions per point: on a successful body-frame query all six output fields
are written for that point; on a failed one none of them is (the point is
untouched); and in both cases X, Y, Z, GpsTime — and every other input or
foreign output dimension — are unchanged. -/
theorem C10_bodyframe_frame_effect (query : Lidar → Option BodyFrame)
    (offset : ℚ) (view : List Point) (i : ℕ) (p : Point)
    (hp : view.get? i = some p) :
    (BodyFrameFilter.filterLoop query offset view).get? i =
      some (BodyFrameFilter.processPoint query offset p) ∧
    ((BodyFrameFilter.processPoint query offset p).x = p.x ∧
      (BodyFrameFilter.processPoint query offset p).y = p.y ∧
      (BodyFrameFilter.processPoint query offset p).z = p.z ∧
      (BodyFrameFilter.processPoint query offset p).gpsTime = p.gpsTime ∧
      (BodyFrameFilter.processPoint query offset p).scanAngle = p.scanAngle ∧
      (BodyFrameFilter.processPoint query offset p).normalX = p.normalX ∧
      (BodyFrameFilter.processPoint query offset p).normalY = p.normalY ∧
      (BodyFrameFilter.processPoint query offset p).normalZ = p.normalZ ∧
      (BodyFrameFilter.processPoint query offset p).xUncertainty = p.xUncertainty ∧
      (BodyFrameFilter.processPoint query offset p).yUncertainty = p.yUncertainty ∧
      (BodyFrameFilter.processPoint query offset p).horizontalUncertainty
          = p.horizontalUncertainty ∧
      (BodyFrameFilter.processPoint query offset p).verticalUncertainty
          = p.verticalUncertainty ∧
      (BodyFrameFilter.processPoint query offset p).uncertainty = p.uncertainty ∧
      (BodyFrameFilter.processPoint query offset p).incidenceAngle
          = p.incidenceAngle) ∧
    (∀ bf, query (BodyFrameFilter.toLidar p offset) = some bf →
      (BodyFrameFilter.processPoint query offset p).bodyFrameX = some bf.x ∧
      (BodyFrameFilter.processPoint query offset p).bodyFrameY = some bf.y ∧
      (BodyFrameFilter.processPoint query offset p).bodyFrameZ = some bf.z ∧
      (BodyFrameFilter.processPoint query offset p).roll = some bf.roll ∧
      (BodyFrameFilter.processPoint query offset p).pitch = some bf.pitch ∧
      (BodyFrameFilter.processPoint query offset p).yaw = some bf.yaw) ∧
    (query (BodyFrameFilter.toLidar p offset) = none →
      BodyFrameFilter.processPoint query offset p = p) := by
  refine ⟨?_, ?_, ?_, ?_⟩
  · rw [BodyFrameFilter.filterLoop_eq_map, List.get?_map, hp]
    rfl
  · unfold BodyFrameFilter.processPoint
    cases query (BodyFrameFilter.toLidar p offset) <;> simp
  · intro bf hbf
    unfold BodyFrameFilter.processPoint
    rw [hbf]
    exact ⟨rfl, rfl, rfl, rfl, rfl, rfl⟩
  · intro hnone
    unfold BodyFrameFilter.processPoint
    rw [hnone]

/-- C10 witness: on a one-point view with a succeeding query, the loop output
at index 0 is the processed point, its input fields are unchanged, and the
six body-frame outputs carry the query result. -/
theorem C10_bodyframe_frame_effect_witness :
    (BodyFrameFilter.filterLoop constBodyFrameQuery 0 [samplePoint]).get? 0 =
      some (BodyFrameFilter.processPoint constBodyFrameQuery 0 samplePoint) ∧
    (BodyFrameFilter.processPoint constBodyFrameQuery 0 samplePoint).x
        = samplePoint.x ∧
    (BodyFrameFilter.processPoint constBodyFrameQuery 0 samplePoint).gpsTime
        = samplePoint.gpsTime ∧
    (BodyFrameFilter.processPoint constBodyFrameQuery 0 samplePoint).bodyFrameX
        = some 7 :=
  ⟨(C10_bodyframe_frame_effect constBodyFrameQuery 0 [samplePoint] 0 samplePoint
      rfl).1,
   (C10_bodyframe_frame_effect constBodyFrameQuery 0 [samplePoint] 0 samplePoint
      rfl).2.1.1,
   (C10_bodyframe_frame_effect constBodyFrameQuery 0 [samplePoint] 0 samplePoint
      rfl).2.1.2.2.2.1,
   ((C10_bodyframe_frame_effect constBodyFrameQuery 0 [samplePoint] 0 samplePoint
      rfl).2.2.1 ⟨7, 8, 9, 1, 2, 3⟩ rfl).1⟩

end Leeward
